import Mathlib

/-!
# Verification of the ast-grep MCP server core (`main.py`)

A shallow embedding of the query-execution and result-windowing layer of the
ast-grep MCP server, together with theorems settling the specification claims.

External effects (subprocess execution, the file system, YAML/JSON parsing of
engine output) are modelled as explicit parameters of the embedded functions:
each tool takes the outcome of the one subprocess invocation it performs as a
`ProcOutcome` argument, and the capability advertiser takes the outcome of
reading the configuration file as a `ConfigFile` argument.
-/

namespace AstGrepMcp

/-- Python's `str.rstrip()` with no argument: remove trailing whitespace.
Realized over the character list of the string so that it evaluates by
kernel reduction. -/
def pyRstrip (s : String) : String :=
  ⟨((s.data.reverse.dropWhile Char.isWhitespace).reverse : List Char)⟩

/-- Python's `str.strip()` with no argument: remove leading and trailing
whitespace. -/
def pyStrip (s : String) : String :=
  ⟨(((s.data.dropWhile Char.isWhitespace).reverse.dropWhile
      Char.isWhitespace).reverse : List Char)⟩

/-- Lexicographic `≤` on character lists by code point — the comparison
Python's `sorted` uses on strings. -/
def charListLe : List Char → List Char → Bool
  | [], _ => true
  | _ :: _, [] => false
  | a :: as, b :: bs =>
      if a.toNat < b.toNat then true
      else if b.toNat < a.toNat then false
      else charListLe as bs

/-- Python's `≤` on strings: code-point lexicographic order. -/
def strLe (a b : String) : Prop := charListLe a.data b.data = true

instance : DecidableRel strLe := fun a b =>
  inferInstanceAs (Decidable (charListLe a.data b.data = true))

theorem charListLe_total (as bs : List Char) :
    charListLe as bs = true ∨ charListLe bs as = true := by
  induction as generalizing bs with
  | nil => left; rfl
  | cons a as ih =>
      cases bs with
      | nil => right; rfl
      | cons b bs =>
          by_cases h₁ : a.toNat < b.toNat
          · left; simp [charListLe, h₁]
          · by_cases h₂ : b.toNat < a.toNat
            · right; simp [charListLe, h₂]
            · rcases ih bs with h | h
              · left; simp [charListLe, h₁, h₂, h]
              · right; simp [charListLe, h₁, h₂, h]

theorem charListLe_trans {as bs cs : List Char}
    (hab : charListLe as bs = true) (hbc : charListLe bs cs = true) :
    charListLe as cs = true := by
  induction as generalizing bs cs with
  | nil => rfl
  | cons a as ih =>
      cases bs with
      | nil => simp [charListLe] at hab
      | cons b bs =>
          cases cs with
          | nil => simp [charListLe] at hbc
          | cons c cs =>
              simp only [charListLe] at hab hbc ⊢
              by_cases h₁ : a.toNat < b.toNat
              · by_cases h₂ : b.toNat < c.toNat
                · have h₃ : a.toNat < c.toNat := Nat.lt_trans h₁ h₂
                  simp [h₃]
                · by_cases h₃ : c.toNat < b.toNat
                  · simp [h₂, h₃] at hbc
                  · have h₄ : a.toNat < c.toNat := by omega
                    simp [h₄]
              · by_cases h₂ : b.toNat < a.toNat
                · simp [h₁, h₂] at hab
                · by_cases h₃ : b.toNat < c.toNat
                  · have h₄ : a.toNat < c.toNat := by omega
                    simp [h₄]
                  · by_cases h₄ : c.toNat < b.toNat
                    · simp [h₃, h₄] at hbc
                    · have h₅ : ¬ a.toNat < c.toNat := by omega
                      have h₆ : ¬ c.toNat < a.toNat := by omega
                      simp [h₁, h₂] at hab
                      simp [h₃, h₄] at hbc
                      simp [h₅, h₆]
                      exact ih hab hbc

instance : IsTotal String strLe :=
  ⟨fun a b => charListLe_total a.data b.data⟩

instance : IsTrans String strLe :=
  ⟨fun _ _ _ hab hbc => charListLe_trans hab hbc⟩

/-- A 0-based position, `{line, column}`, as produced by the engine's JSON
output (`range.start` / `range.end`). -/
structure Pos where
  line : Nat
  column : Nat
deriving DecidableEq, Repr

/-- A match range with 0-based `start` and `end` positions. -/
structure MatchRange where
  start : Pos
  «end» : Pos
deriving DecidableEq, Repr

/-- One structural match as decoded from the engine's JSON array: `file`,
`range`, and the verbatim matched `text` (metavariables are irrelevant to the
properties proved here and omitted). -/
structure Match where
  file : String
  range : MatchRange
  text : String
deriving DecidableEq, Repr

/-- Model of the engine's standard output as consumed by `main.py`, which only
ever looks at `result.stdout.strip()` and feeds it to `json.loads`.  The
constructors partition the possible stdout strings by that consumption:
`empty` is any string that strips to `""` (on which `json.loads` raises),
`jsonMatches ms` is a JSON array document denoting the match list `ms`
(on which `json.loads` succeeds), and `malformed` is any other text
(on which `json.loads` raises). -/
inductive StdOut where
  | empty
  | jsonMatches (ms : List Match)
  | malformed
deriving DecidableEq, Repr

/-- The result of `subprocess.run` with `capture_output=True, text=True`:
captured stdout and stderr (exit status 0, since `check=True` turns a non-zero
status into an exception before a `CompletedProcess` is returned). -/
structure CompletedProcess where
  stdout : StdOut
  stderr : String
deriving DecidableEq, Repr

/-- The outcome of attempting the subprocess call inside `run_command`:
either the process ran to completion with a return code and captured streams,
or the executable could not be found (`FileNotFoundError`). -/
inductive ProcOutcome where
  | completed (returncode : Int) (stdout : StdOut) (stderr : String)
  | fileNotFound
deriving DecidableEq, Repr

/-- The exceptions `main.py` raises, by raise site:
`invalidParam` is the `ValueError` for a bad `output_format`;
`invocationFailed` is the `RuntimeError` built from `CalledProcessError`
(carrying `e.cmd`, `e.returncode` and the stderr text or placeholder);
`executableNotFound` is the `RuntimeError` built from `FileNotFoundError`
(carrying `args[0]`); `jsonDecodeError` is `json.JSONDecodeError` escaping
from `json.loads`; `noMatches` is the `ValueError` raised by
`test_match_code_rule` on an empty result set. -/
inductive ToolError where
  | invalidParam (msg : String)
  | invocationFailed (cmd : List String) (returncode : Int) (stderrMsg : String)
  | executableNotFound (exe : String)
  | jsonDecodeError
  | noMatches (msg : String)
deriving DecidableEq, Repr

/-- The value a tool returns: rendered text or the structured match list
(`str | List[dict]` in the source). -/
inductive ToolResult where
  | text (s : String)
  | json (ms : List Match)
deriving DecidableEq, Repr

/-- Embeds `run_command` (main.py lines 278-299): exit status 0 yields the
completed process; a non-zero status raises a `RuntimeError` carrying the
command, the exit code, and `e.stderr.strip()` — or the placeholder
`"(no error output)"` when stderr is the empty (falsy) string; a missing
executable raises a `RuntimeError` naming `args[0]`.  The `inputText`
parameter mirrors the source signature; it only feeds the subprocess. -/
def run_command (args : List String) (inputText : Option String)
    (proc : ProcOutcome) : Except ToolError CompletedProcess :=
  match proc with
  | .completed returncode stdout stderr =>
      if returncode = 0 then
        .ok { stdout := stdout, stderr := stderr }
      else
        .error (.invocationFailed args returncode
          (if stderr = "" then "(no error output)" else pyStrip stderr))
  | .fileNotFound => .error (.executableNotFound (args.headD ""))

/-- Embeds the argv construction of `run_ast_grep` (main.py lines 301-304):
when `CONFIG_PATH` is truthy (a non-`None`, non-empty string) the pair
`["--config", CONFIG_PATH]` is prepended to the operation arguments, and the
whole list is prefixed by `["ast-grep", command]`. -/
def run_ast_grep_argv (command : String) (args : List String)
    (configPath : Option String) : List String :=
  let args :=
    match configPath with
    | some p => if p ≠ "" then ["--config", p] ++ args else args
    | none => args
  ["ast-grep", command] ++ args

/-- Embeds `run_ast_grep` (main.py lines 301-304): builds the argv and runs
`run_command` on it. -/
def run_ast_grep (command : String) (args : List String)
    (configPath : Option String) (inputText : Option String)
    (proc : ProcOutcome) : Except ToolError CompletedProcess :=
  run_command (run_ast_grep_argv command args configPath) inputText proc

/-- Embeds `json.loads(result.stdout.strip())` as used by
`test_match_code_rule` (main.py line 95): no fallback, so output that strips
to the empty string makes `json.loads` raise. -/
def jsonLoadsStripped : StdOut → Except ToolError (List Match)
  | .empty => .error .jsonDecodeError
  | .jsonMatches ms => .ok ms
  | .malformed => .error .jsonDecodeError

/-- Embeds `json.loads(result.stdout.strip() or "[]")` as used by `find_code`
and `find_code_by_rule` (main.py lines 148 and 211): output that strips to the
empty (falsy) string is replaced by `"[]"` before decoding, so it decodes to
the empty list. -/
def jsonLoadsStrippedOrEmptyList : StdOut → Except ToolError (List Match)
  | .empty => .ok []
  | .jsonMatches ms => .ok ms
  | .malformed => .error .jsonDecodeError

/-- Embeds Python's `'\n\n'.join(blocks)` (well, `sep.join(blocks)`):
the empty list joins to `""`, a singleton to itself, and otherwise the
separator is placed between consecutive blocks. -/
def joinBlocks (sep : String) : List String → String
  | [] => ""
  | [b] => b
  | b :: b' :: bs => b ++ sep ++ joinBlocks sep (b' :: bs)

/-- Embeds the per-match block of `format_matches_as_text` (main.py lines
239-251): header `file:line` for single-line matches (1-based) or
`file:start-end` otherwise, a newline, then `m['text'].rstrip()`. -/
def formatMatchBlock (m : Match) : String :=
  let startLine := m.range.start.line + 1
  let endLine := m.range.«end».line + 1
  let matchText := pyRstrip m.text
  let header :=
    if startLine = endLine then
      m.file ++ ":" ++ toString startLine
    else
      m.file ++ ":" ++ toString startLine ++ "-" ++ toString endLine
  header ++ "\n" ++ matchText

/-- Embeds `format_matches_as_text` (main.py lines 229-253): the empty list
renders to `""`; otherwise the per-match blocks are joined with `"\n\n"`. -/
def format_matches_as_text (matchList : List Match) : String :=
  if matchList = [] then ""
  else joinBlocks "\n\n" (matchList.map formatMatchBlock)

/-- Embeds Python's `l[:k]` for an `int` bound `k` (as in
`matches[:max_results]`, main.py lines 153 and 216): a non-negative bound
keeps the first `k` elements (clamped at the length); a negative bound stops
`-k` elements before the end (clamped at zero). -/
def pySliceTo (k : Int) (l : List Match) : List Match :=
  if k < 0 then l.take ((l.length : Int) + k).toNat else l.take k.toNat

/-- Embeds the truncation step shared by `find_code` and `find_code_by_rule`
(main.py lines 150-153 and 213-216): slice only when `max_results` is given
and `total_matches > max_results`. -/
def applyMaxResults (maxResults : Option Int) (matchList : List Match) :
    List Match :=
  match maxResults with
  | some k => if (matchList.length : Int) > k then pySliceTo k matchList else matchList
  | none => matchList

/-- Embeds the count header shared by `find_code` and `find_code_by_rule`
(main.py lines 159-161 and 222-224), for a non-empty truncated list:
`"Found {len(matches)} matches"`, extended with
`" (showing first {max_results} of {total_matches})"` when truncation
occurred. -/
def countHeader (maxResults : Option Int) (total : Nat)
    (shown : Nat) : String :=
  let header := "Found " ++ toString shown ++ " matches"
  match maxResults with
  | some k =>
      if (total : Int) > k then
        header ++ " (showing first " ++ toString k ++ " of " ++
          toString total ++ ")"
      else header
  | none => header

/-- Embeds the argument construction of `find_code` (main.py lines 142-144):
`["--pattern", pattern]`, extended with `["--lang", language]` when the
language string is truthy (non-empty). -/
def find_code_args (pattern language : String) : List String :=
  ["--pattern", pattern] ++ (if language ≠ "" then ["--lang", language] else [])

/-- Embeds the tool `find_code` (main.py lines 100-163).  The validation of
`output_format` happens before anything touches `proc` (the subprocess
outcome), so an invalid format yields the `ValueError` for every conceivable
engine behavior — the pure-embedding rendering of "no subprocess call is
made". -/
def find_code (projectFolder pattern language : String)
    (maxResults : Option Int) (outputFormat : String)
    (configPath : Option String) (proc : ProcOutcome) :
    Except ToolError ToolResult :=
  if outputFormat ≠ "text" ∧ outputFormat ≠ "json" then
    .error (.invalidParam
      ("Invalid output_format: " ++ outputFormat ++ ". Must be 'text' or 'json'."))
  else do
    let args := find_code_args pattern language
    let result ← run_ast_grep "run" (args ++ ["--json", projectFolder])
      configPath none proc
    let matchList ← jsonLoadsStrippedOrEmptyList result.stdout
    let total := matchList.length
    let matchList := applyMaxResults maxResults matchList
    if outputFormat = "text" then
      if matchList = [] then
        return .text "No matches found"
      else
        return .text (countHeader maxResults total matchList.length ++ ":\n\n" ++
          format_matches_as_text matchList)
    else
      return .json matchList

/-- Embeds the tool `find_code_by_rule` (main.py lines 165-226); identical to
`find_code` except for the subcommand (`scan`) and the operation arguments
(`["--inline-rules", yaml]`). -/
def find_code_by_rule (projectFolder yamlRule : String)
    (maxResults : Option Int) (outputFormat : String)
    (configPath : Option String) (proc : ProcOutcome) :
    Except ToolError ToolResult :=
  if outputFormat ≠ "text" ∧ outputFormat ≠ "json" then
    .error (.invalidParam
      ("Invalid output_format: " ++ outputFormat ++ ". Must be 'text' or 'json'."))
  else do
    let args := ["--inline-rules", yamlRule]
    let result ← run_ast_grep "scan" (args ++ ["--json", projectFolder])
      configPath none proc
    let matchList ← jsonLoadsStrippedOrEmptyList result.stdout
    let total := matchList.length
    let matchList := applyMaxResults maxResults matchList
    if outputFormat = "text" then
      if matchList = [] then
        return .text "No matches found"
      else
        return .text (countHeader maxResults total matchList.length ++ ":\n\n" ++
          format_matches_as_text matchList)
    else
      return .json matchList

/-- Embeds the tool `test_match_code_rule` (main.py lines 83-98): runs
`ast-grep scan --inline-rules <yaml> --json --stdin` feeding `code` on stdin,
decodes stdout with `json.loads(result.stdout.strip())` (no empty fallback),
raises `ValueError` when the decoded list is falsy (empty), and otherwise
returns the list unchanged. -/
def test_match_code_rule (code yamlRule : String)
    (configPath : Option String) (proc : ProcOutcome) :
    Except ToolError (List Match) := do
  let result ← run_ast_grep "scan" ["--inline-rules", yamlRule, "--json", "--stdin"]
    configPath (some code) proc
  let matchList ← jsonLoadsStripped result.stdout
  if matchList = [] then
    .error (.noMatches
      "No matches found for the given code and rule. Try adding `stopBy: end` to your inside/has rule.")
  else
    .ok matchList

/-- Embeds the tool `dump_syntax_tree` (main.py lines 64-81): runs
`ast-grep run --pattern <code> --lang <language> --debug-query=<format>` and
returns `result.stderr.strip()`. -/
def dump_syntax_tree (code language fmt : String)
    (configPath : Option String) (proc : ProcOutcome) :
    Except ToolError String := do
  let result ← run_ast_grep "run"
    ["--pattern", code, "--lang", language, "--debug-query=" ++ fmt]
    configPath none proc
  return pyStrip result.stderr

/-- The fixed baseline language list of `get_supported_languages`
(main.py lines 257-262). -/
def baselineLanguages : List String :=
  ["bash", "c", "cpp", "csharp", "css", "elixir", "go", "haskell",
   "html", "java", "javascript", "json", "jsx", "kotlin", "lua",
   "nix", "php", "python", "ruby", "rust", "scala", "solidity",
   "swift", "tsx", "typescript", "yaml"]

/-- The result of `yaml.safe_load` on the configuration file, restricted to
the shapes `get_supported_languages` distinguishes: `None` (an empty
document), or a mapping with top-level `keys` and — when `"customLanguages"`
is among them — the keys `customLangKeys` of that sub-mapping. -/
inductive YamlDoc where
  | noneDoc
  | mapping (keys : List String) (customLangKeys : List String)
deriving DecidableEq, Repr

/-- The outcome of `os.path.exists` plus `open`/`yaml.safe_load` on the
configured path, as observed by `get_supported_languages`: the file is
`missing` (`os.path.exists` is false), reading or parsing raises
(`readError`, swallowed by the `except` clause), or parsing yields a
document. -/
inductive ConfigFile where
  | missing
  | readError
  | parsed (doc : YamlDoc)
deriving DecidableEq, Repr

/-- Embeds `get_supported_languages` (main.py lines 255-276): start from the
baseline list; when `CONFIG_PATH` is truthy and the file exists, try to parse
it, and when the document is truthy and has a `customLanguages` key, append
those keys (any exception is swallowed); finally `sorted(set(languages))` —
realized as `dedup` followed by an insertion sort, which yields the unique
`strLe`-sorted duplicate-free enumeration, exactly Python's
`sorted(set(...))` under code-point string comparison. -/
def get_supported_languages (configPath : Option String)
    (file : ConfigFile) : List String :=
  let languages := baselineLanguages
  let languages :=
    match configPath with
    | some p =>
        if p ≠ "" then
          match file with
          | .missing => languages
          | .readError => languages
          | .parsed doc =>
              match doc with
              | .noneDoc => languages
              | .mapping keys customLangKeys =>
                  if keys ≠ [] ∧ "customLanguages" ∈ keys then
                    languages ++ customLangKeys
                  else languages
        else languages
    | none => languages
  List.insertionSort strLe languages.dedup

/-- Modelled from the spec: the `SearchKey` of §3 — "the tuple of parameters
that deterministically identifies one logical search: pattern text (or rule
YAML), target folder, language filter".  The paginator-cache variant of the
search tools is not present in `src/main.py` (the spec's §9 notes the source
has two divergent caching strategies across revisions; this revision holds
the simpler truncate variant), so the cache layer is modelled from §3-§4.4
of the spec. -/
structure SearchKey where
  query : String
  folder : String
  language : String
deriving DecidableEq, Repr

/-- Modelled from the spec: the single-slot `CacheEntry` of §3,
`(key, matches)`. -/
structure CacheEntry where
  key : SearchKey
  matchList : List Match
deriving DecidableEq, Repr

/-- Modelled from the spec: the `PaginationWindow` of §3, "derived, not
stored": the served slice plus `{total_matches, offset, limit, returned,
has_more}`. -/
structure PaginationWindow where
  results : List Match
  total_matches : Nat
  offset : Int
  limit : Option Int
  returned : Nat
  has_more : Bool
deriving DecidableEq, Repr

/-- Modelled from the spec: the full outcome of one `get_window` call — the
window, the cache slot after the call, and whether `producer` (a fresh engine
search) was invoked. -/
structure WindowResult where
  window : PaginationWindow
  cacheAfter : Option CacheEntry
  producerInvoked : Bool
deriving DecidableEq, Repr

/-- Modelled from the spec: the `limit` precondition of §4.4 — `limit` must
be absent or strictly positive; this Boolean is true when a present limit is
invalid. -/
def limitInvalid : Option Int → Bool
  | some l => decide (l ≤ 0)
  | none => false

/-- Modelled from the spec: `get_window(key, offset, limit, producer)` of
§4.4, which is absent from `src/main.py`.  Preconditions (§4.4): `offset ≥ 0`
else reject with a parameter error; `limit` absent or `> 0` else reject.
Freshness (§4.4 step 1): a fresh search — materialized as the `producer`
argument, the match list a fresh engine search would return — is required
when `offset == 0`, or no `CacheEntry` exists, or the entry's key differs
from `key`; otherwise the cached list is reused.  On a fresh search the
single slot is overwritten with `(key, producer)` (step 2).  Slice (step 3):
if `offset ≥ total` the window is empty and `end_idx = offset`; otherwise
`end_idx = min(offset + limit, total)` when `limit` is given, else `total`;
the window is `matches[offset:end_idx]`.  Metadata (step 4 and §3):
`returned = len(results)`, `has_more = (offset + returned) < total`. -/
def get_window (key : SearchKey) (offset : Int) (limit : Option Int)
    (producer : List Match) (cache : Option CacheEntry) :
    Except ToolError WindowResult :=
  if offset < 0 then
    .error (.invalidParam "offset must be >= 0")
  else if limitInvalid limit then
    .error (.invalidParam "limit must be > 0")
  else
    let fresh : Bool :=
      offset == 0 ||
        match cache with
        | none => true
        | some entry => entry.key != key
    let matchList :=
      if fresh then producer
      else
        match cache with
        | some entry => entry.matchList
        | none => producer
    let cacheAfter :=
      if fresh then some { key := key, matchList := producer } else cache
    let total := matchList.length
    let endIdx : Int :=
      if offset ≥ (total : Int) then offset
      else
        match limit with
        | some l => min (offset + l) (total : Int)
        | none => (total : Int)
    let results :=
      if offset ≥ (total : Int) then []
      else (matchList.drop offset.toNat).take (endIdx - offset).toNat
    .ok
      { window :=
          { results := results
            total_matches := total
            offset := offset
            limit := limit
            returned := results.length
            has_more := offset + results.length < (total : Int) }
        cacheAfter := cacheAfter
        producerInvoked := fresh }

end AstGrepMcp

deriving instance DecidableEq for Except

namespace AstGrepMcp

/-- C2 (amended): every engine invocation goes through `run_ast_grep`, and
when the effective configuration path is set (truthy) the argument list is
exactly `[engine, subcommand, "--config", path] ++ operation args`, the
`--config` pair immediately after the subcommand and before every other
argument; when the path is unset, `run_ast_grep` prepends nothing and the
list is exactly `[engine, subcommand] ++ operation args` (a `--config` token
can then still occur only as a caller-supplied operation argument). -/
theorem run_ast_grep_config_pair_position :
    (∀ (command : String) (args : List String) (p : String), p ≠ "" →
        run_ast_grep_argv command args (some p) =
          ["ast-grep", command, "--config", p] ++ args)
    ∧ (∀ (command : String) (args : List String),
        run_ast_grep_argv command args none = ["ast-grep", command] ++ args) := by
  constructor
  · intro command args p hp
    simp [run_ast_grep_argv, hp]
  · intro command args
    rfl

/-- Witness for C2's theorem at a concrete invocation. -/
theorem run_ast_grep_config_pair_position_witness :
    "/cfg/sgconfig.yaml" ≠ "" ∧
      run_ast_grep_argv "run" ["--pattern", "x"] (some "/cfg/sgconfig.yaml") =
        ["ast-grep", "run", "--config", "/cfg/sgconfig.yaml", "--pattern", "x"] :=
  ⟨by decide,
    run_ast_grep_config_pair_position.1 "run" ["--pattern", "x"]
      "/cfg/sgconfig.yaml" (by decide)⟩

/-- Counterexample to C2 as stated: with no configuration path set, a
`--config` token can still appear in the argument list, namely when the
caller-supplied pattern is itself the string `--config` (here via
`find_code`'s argument construction). -/
theorem run_ast_grep_no_config_counterexample :
    "--config" ∈ run_ast_grep_argv "run"
      (find_code_args "--config" "" ++ ["--json", "/proj"]) none := by
  decide

/-- C7: for every subprocess invocation, a non-zero exit status raises the
failure carrying the command, the exit code and the stripped error-stream
text (or the placeholder `"(no error output)"` when the error stream is the
empty string); a missing executable raises the distinct failure naming
`args[0]`; exit status 0 raises neither and yields the captured
stdout/stderr. -/
theorem run_command_failure_taxonomy :
    (∀ (args : List String) (input : Option String) (code : Int)
        (out : StdOut) (err : String), code ≠ 0 →
        run_command args input (.completed code out err) =
          .error (.invocationFailed args code
            (if err = "" then "(no error output)" else pyStrip err)))
    ∧ (∀ (args : List String) (input : Option String),
        run_command args input .fileNotFound =
          .error (.executableNotFound (args.headD "")))
    ∧ (∀ (args : List String) (input : Option String) (out : StdOut)
        (err : String),
        run_command args input (.completed 0 out err) =
          .ok { stdout := out, stderr := err }) := by
  refine ⟨?_, ?_, ?_⟩
  · intro args input code out err h
    simp [run_command, h]
  · intro args input
    rfl
  · intro args input out err
    rfl

/-- Witness for C7's theorem at a concrete failing invocation. -/
theorem run_command_failure_taxonomy_witness :
    (2 : Int) ≠ 0 ∧
      run_command ["ast-grep", "run"] none (.completed 2 .empty "boom\n") =
        .error (.invocationFailed ["ast-grep", "run"] 2 "boom") := by
  refine ⟨by decide, ?_⟩
  rw [run_command_failure_taxonomy.1 ["ast-grep", "run"] none 2 .empty "boom\n"
    (by decide)]
  decide

/-- C8: an `output_format` outside `{"text", "json"}` is rejected by
`find_code` and `find_code_by_rule` with the `Invalid output_format`
parameter error, for every conceivable subprocess outcome `proc` — the
result does not depend on `proc`, i.e. no engine process is consulted. -/
theorem invalid_output_format_rejected :
    (∀ (folder pattern language : String) (maxResults : Option Int)
        (fmt : String) (cfg : Option String) (proc : ProcOutcome),
        fmt ≠ "text" → fmt ≠ "json" →
        find_code folder pattern language maxResults fmt cfg proc =
          .error (.invalidParam
            ("Invalid output_format: " ++ fmt ++ ". Must be 'text' or 'json'.")))
    ∧ (∀ (folder yamlRule : String) (maxResults : Option Int) (fmt : String)
        (cfg : Option String) (proc : ProcOutcome),
        fmt ≠ "text" → fmt ≠ "json" →
        find_code_by_rule folder yamlRule maxResults fmt cfg proc =
          .error (.invalidParam
            ("Invalid output_format: " ++ fmt ++ ". Must be 'text' or 'json'."))) := by
  constructor
  · intro folder pattern language maxResults fmt cfg proc h₁ h₂
    simp [find_code, h₁, h₂]
  · intro folder yamlRule maxResults fmt cfg proc h₁ h₂
    simp [find_code_by_rule, h₁, h₂]

/-- Witness for C8's theorem: `output_format = "xml"` is rejected under two
different subprocess outcomes, including a missing executable. -/
theorem invalid_output_format_rejected_witness :
    ("xml" ≠ "text" ∧ "xml" ≠ "json") ∧
      find_code "/p" "c" "" none "xml" none .fileNotFound =
        .error (.invalidParam "Invalid output_format: xml. Must be 'text' or 'json'.") ∧
      find_code_by_rule "/p" "y" none "xml" none (.completed 0 .empty "") =
        .error (.invalidParam "Invalid output_format: xml. Must be 'text' or 'json'.") :=
  ⟨⟨by decide, by decide⟩,
    invalid_output_format_rejected.1 "/p" "c" "" none "xml" none .fileNotFound
      (by decide) (by decide),
    invalid_output_format_rejected.2 "/p" "y" none "xml" none
      (.completed 0 .empty "") (by decide) (by decide)⟩

end AstGrepMcp

namespace AstGrepMcp

/-- Python's `str.join` distributes over list append when both sides are non-empty. -/
theorem joinBlocks_append (sep : String) :
    ∀ (l₁ l₂ : List String), l₁ ≠ [] → l₂ ≠ [] →
      joinBlocks sep (l₁ ++ l₂) =
        joinBlocks sep l₁ ++ sep ++ joinBlocks sep l₂
  | [], _, h₁, _ => absurd rfl h₁
  | [_], [], _, h₂ => absurd rfl h₂
  | [a], b :: l₂, _, _ => by
      simp [joinBlocks]
  | a :: a' :: l₁', l₂, _, h₂ => by
      have ih := joinBlocks_append sep (a' :: l₁') l₂ (by simp) h₂
      simp only [List.cons_append] at ih ⊢
      simp only [joinBlocks]
      rw [ih]
      simp [String.append_assoc]

/-- C4: the text renderer maps the empty list to the empty string; a
single-line match (equal 0-based start and end lines) renders as
`file:line` with the 1-based line number, then a newline, then the match
text with trailing whitespace removed; a multi-line match (start < end)
renders the 1-based inclusive range `file:start-end`; and non-empty block
lists are joined by exactly one blank line (the separator `"\n\n"`). -/
theorem format_matches_as_text_rendering :
    (format_matches_as_text [] = "")
    ∧ (∀ m : Match, m.range.start.line = m.range.«end».line →
        format_matches_as_text [m] =
          m.file ++ ":" ++ toString (m.range.start.line + 1) ++ "\n" ++
            pyRstrip m.text)
    ∧ (∀ m : Match, m.range.start.line < m.range.«end».line →
        format_matches_as_text [m] =
          m.file ++ ":" ++ toString (m.range.start.line + 1) ++ "-" ++
            toString (m.range.«end».line + 1) ++ "\n" ++ pyRstrip m.text)
    ∧ (∀ ms₁ ms₂ : List Match, ms₁ ≠ [] → ms₂ ≠ [] →
        format_matches_as_text (ms₁ ++ ms₂) =
          format_matches_as_text ms₁ ++ "\n\n" ++
            format_matches_as_text ms₂) := by
  refine ⟨rfl, ?_, ?_, ?_⟩
  · intro m h
    simp [format_matches_as_text, joinBlocks, formatMatchBlock, h]
  · intro m h
    have hne : ¬ m.range.start.line + 1 = m.range.«end».line + 1 := by omega
    simp [format_matches_as_text, joinBlocks, formatMatchBlock, hne,
      String.append_assoc]
  · intro ms₁ ms₂ h₁ h₂
    have hm₁ : ms₁.map formatMatchBlock ≠ [] := by
      simpa using h₁
    have hm₂ : ms₂.map formatMatchBlock ≠ [] := by
      simpa using h₂
    simp only [format_matches_as_text, List.map_append, List.append_eq_nil,
      h₁, h₂, if_neg, false_and, and_false, ite_false]
    rw [joinBlocks_append "\n\n" (ms₁.map formatMatchBlock)
      (ms₂.map formatMatchBlock) hm₁ hm₂]

/-- Witness for C4's theorem: the spec's concrete examples — a match
spanning 0-based lines 10-10 renders header `f.py:11`, one spanning 9-10
renders `f.py:10-11`, and two blocks are joined by one blank line. -/
theorem format_matches_as_text_rendering_witness :
    ((10 : Nat) = 10 ∧
      format_matches_as_text
        [{ file := "f.py", range := { start := ⟨10, 0⟩, «end» := ⟨10, 4⟩ },
           text := "x = 1  " }] = "f.py:11\nx = 1")
    ∧ ((9 : Nat) < 10 ∧
      format_matches_as_text
        [{ file := "f.py", range := { start := ⟨9, 0⟩, «end» := ⟨10, 4⟩ },
           text := "y" }] = "f.py:10-11\ny")
    ∧ format_matches_as_text
        [{ file := "f.py", range := { start := ⟨10, 0⟩, «end» := ⟨10, 4⟩ },
           text := "x = 1  " },
         { file := "f.py", range := { start := ⟨9, 0⟩, «end» := ⟨10, 4⟩ },
           text := "y" }] = "f.py:11\nx = 1\n\nf.py:10-11\ny" := by
  refine ⟨⟨rfl, ?_⟩, ⟨by decide, ?_⟩, ?_⟩
  · rw [format_matches_as_text_rendering.2.1 _ rfl]
    decide
  · rw [format_matches_as_text_rendering.2.2.1 _ (by decide)]
    decide
  · show format_matches_as_text
        ([{ file := "f.py", range := { start := ⟨10, 0⟩, «end» := ⟨10, 4⟩ },
            text := "x = 1  " }] ++
          [{ file := "f.py", range := { start := ⟨9, 0⟩, «end» := ⟨10, 4⟩ },
             text := "y" }]) = "f.py:11\nx = 1\n\nf.py:10-11\ny"
    rw [format_matches_as_text_rendering.2.2.2
      [{ file := "f.py", range := { start := ⟨10, 0⟩, «end» := ⟨10, 4⟩ },
         text := "x = 1  " }]
      [{ file := "f.py", range := { start := ⟨9, 0⟩, «end» := ⟨10, 4⟩ },
         text := "y" }] (by decide) (by decide)]
    decide

/-- C6: `test_match_code_rule` raises the "no matches" failure exactly when
the decoded result set is empty, and returns the full decoded list unchanged
otherwise. -/
theorem test_match_code_rule_no_matches_iff :
    ∀ (code yamlRule : String) (cfg : Option String) (ms : List Match)
      (e : String),
      (test_match_code_rule code yamlRule cfg
          (.completed 0 (.jsonMatches ms) e) =
        .error (.noMatches
          "No matches found for the given code and rule. Try adding `stopBy: end` to your inside/has rule.")
        ↔ ms = [])
      ∧ (ms ≠ [] →
          test_match_code_rule code yamlRule cfg
            (.completed 0 (.jsonMatches ms) e) = .ok ms) := by
  intro code yamlRule cfg ms e
  constructor
  · constructor
    · intro h
      by_contra hne
      simp [test_match_code_rule, run_ast_grep, run_command,
        jsonLoadsStripped, hne, bind, Except.bind, pure, Except.pure] at h
    · intro h
      subst h
      rfl
  · intro hne
    simp [test_match_code_rule, run_ast_grep, run_command,
      jsonLoadsStripped, hne, bind, Except.bind, pure, Except.pure]

/-- Witness for C6's theorem at a concrete non-empty result set. -/
theorem test_match_code_rule_no_matches_iff_witness :
    [({ file := "f.py", range := { start := ⟨0, 0⟩, «end» := ⟨0, 4⟩ },
        text := "pass" } : Match)] ≠ [] ∧
      test_match_code_rule "pass" "id: r" none
        (.completed 0 (.jsonMatches
          [{ file := "f.py", range := { start := ⟨0, 0⟩, «end» := ⟨0, 4⟩ },
             text := "pass" }]) "") =
        .ok [{ file := "f.py", range := { start := ⟨0, 0⟩, «end» := ⟨0, 4⟩ },
               text := "pass" }] :=
  ⟨by decide,
    (test_match_code_rule_no_matches_iff "pass" "id: r" none
      [{ file := "f.py", range := { start := ⟨0, 0⟩, «end» := ⟨0, 4⟩ },
         text := "pass" }] "").2 (by decide)⟩

end AstGrepMcp

namespace AstGrepMcp

/-- Truncating an empty match list yields the empty list for every
`max_results`. -/
theorem applyMaxResults_nil (maxResults : Option Int) :
    applyMaxResults maxResults [] = [] := by
  cases maxResults with
  | none => rfl
  | some k => simp [applyMaxResults, pySliceTo]

/-- Counterexample to C5 as stated: `test_match_code_rule` is one of the
list-producing operations, yet on empty engine stdout it raises a JSON
decoding error instead of decoding an empty array, because it calls
`json.loads(result.stdout.strip())` without the `or "[]"` fallback. -/
theorem empty_stdout_decoding_counterexample :
    test_match_code_rule "def foo(): pass" "id: r" none
      (.completed 0 .empty "") = .error .jsonDecodeError := by
  decide

/-- C5 (amended): for `find_code` and `find_code_by_rule`, empty or absent
engine stdout is decoded as an empty match array and never raises a decoding
error (the `or "[]"` fallback); `test_match_code_rule` decodes stdout
without that fallback and raises a decoding error on empty output. -/
theorem empty_stdout_decoding :
    ∀ (folder pattern language yamlRule code : String) (mr : Option Int)
      (cfg : Option String) (e : String),
      find_code folder pattern language mr "json" cfg (.completed 0 .empty e) =
        .ok (.json [])
      ∧ find_code folder pattern language mr "text" cfg (.completed 0 .empty e) =
        .ok (.text "No matches found")
      ∧ find_code_by_rule folder yamlRule mr "json" cfg (.completed 0 .empty e) =
        .ok (.json [])
      ∧ find_code_by_rule folder yamlRule mr "text" cfg (.completed 0 .empty e) =
        .ok (.text "No matches found")
      ∧ test_match_code_rule code yamlRule cfg (.completed 0 .empty e) =
        .error .jsonDecodeError := by
  intro folder pattern language yamlRule code mr cfg e
  refine ⟨?_, ?_, ?_, ?_, ?_⟩ <;>
    simp [find_code, find_code_by_rule, test_match_code_rule, run_ast_grep,
      run_command, jsonLoadsStrippedOrEmptyList, jsonLoadsStripped,
      applyMaxResults_nil, bind, Except.bind, pure, Except.pure]

/-- C10: `max_results` is never validated.  With `max_results = 0` and a
non-empty engine result, the text output is exactly `"No matches found"`
with no count header and the json output is the empty list; a negative
`max_results` is applied as a Python slice bound, keeping the first
`total - |max_results|` matches, i.e. dropping matches from the end instead
of being rejected.  Both `find_code` and `find_code_by_rule` behave so. -/
theorem max_results_unvalidated :
    (∀ (folder pattern language : String) (cfg : Option String)
        (ms : List Match) (e : String), ms ≠ [] →
        find_code folder pattern language (some 0) "text" cfg
          (.completed 0 (.jsonMatches ms) e) = .ok (.text "No matches found"))
    ∧ (∀ (folder pattern language : String) (cfg : Option String)
        (ms : List Match) (e : String),
        find_code folder pattern language (some 0) "json" cfg
          (.completed 0 (.jsonMatches ms) e) = .ok (.json []))
    ∧ (∀ (folder pattern language : String) (cfg : Option String)
        (ms : List Match) (e : String) (k : Int), k < 0 →
        find_code folder pattern language (some k) "json" cfg
          (.completed 0 (.jsonMatches ms) e) =
          .ok (.json (ms.take (ms.length - (-k).toNat))))
    ∧ (∀ (folder yamlRule : String) (cfg : Option String)
        (ms : List Match) (e : String), ms ≠ [] →
        find_code_by_rule folder yamlRule (some 0) "text" cfg
          (.completed 0 (.jsonMatches ms) e) = .ok (.text "No matches found"))
    ∧ (∀ (folder yamlRule : String) (cfg : Option String)
        (ms : List Match) (e : String),
        find_code_by_rule folder yamlRule (some 0) "json" cfg
          (.completed 0 (.jsonMatches ms) e) = .ok (.json []))
    ∧ (∀ (folder yamlRule : String) (cfg : Option String)
        (ms : List Match) (e : String) (k : Int), k < 0 →
        find_code_by_rule folder yamlRule (some k) "json" cfg
          (.completed 0 (.jsonMatches ms) e) =
          .ok (.json (ms.take (ms.length - (-k).toNat)))) := by
  have hzero : ∀ ms : List Match, applyMaxResults (some 0) ms = [] := by
    intro ms
    cases ms with
    | nil => rfl
    | cons m ms => simp [applyMaxResults, pySliceTo]
  have hneg : ∀ (ms : List Match) (k : Int), k < 0 →
      applyMaxResults (some k) ms = ms.take (ms.length - (-k).toNat) := by
    intro ms k hk
    have hgt : (ms.length : Int) > k := by omega
    have heq : ((ms.length : Int) + k).toNat = ms.length - (-k).toNat := by
      omega
    simp [applyMaxResults, pySliceTo, hgt, hk, heq]
  refine ⟨?_, ?_, ?_, ?_, ?_, ?_⟩
  · intro folder pattern language cfg ms e _
    simp [find_code, run_ast_grep, run_command, jsonLoadsStrippedOrEmptyList,
      hzero, bind, Except.bind, pure, Except.pure]
  · intro folder pattern language cfg ms e
    simp [find_code, run_ast_grep, run_command, jsonLoadsStrippedOrEmptyList,
      hzero, bind, Except.bind, pure, Except.pure]
  · intro folder pattern language cfg ms e k hk
    simp [find_code, run_ast_grep, run_command, jsonLoadsStrippedOrEmptyList,
      hneg ms k hk, bind, Except.bind, pure, Except.pure]
  · intro folder yamlRule cfg ms e _
    simp [find_code_by_rule, run_ast_grep, run_command,
      jsonLoadsStrippedOrEmptyList, hzero, bind, Except.bind, pure, Except.pure]
  · intro folder yamlRule cfg ms e
    simp [find_code_by_rule, run_ast_grep, run_command,
      jsonLoadsStrippedOrEmptyList, hzero, bind, Except.bind, pure, Except.pure]
  · intro folder yamlRule cfg ms e k hk
    simp [find_code_by_rule, run_ast_grep, run_command,
      jsonLoadsStrippedOrEmptyList, hneg ms k hk, bind, Except.bind, pure, Except.pure]

/-- Witness for C10's theorem at concrete inputs: `max_results = 0` on a
one-match result, and `max_results = -1` on a two-match result (dropping the
last match). -/
theorem max_results_unvalidated_witness :
    ([({ file := "f.py", range := { start := ⟨0, 0⟩, «end» := ⟨0, 4⟩ },
         text := "pass" } : Match)] ≠ [] ∧ (-1 : Int) < 0) ∧
      find_code "/p" "pat" "" (some 0) "text" none
        (.completed 0 (.jsonMatches
          [{ file := "f.py", range := { start := ⟨0, 0⟩, «end» := ⟨0, 4⟩ },
             text := "pass" }]) "") = .ok (.text "No matches found") ∧
      find_code_by_rule "/p" "id: r" (some (-1)) "json" none
        (.completed 0 (.jsonMatches
          [{ file := "a.py", range := { start := ⟨0, 0⟩, «end» := ⟨0, 1⟩ },
             text := "a" },
           { file := "b.py", range := { start := ⟨1, 0⟩, «end» := ⟨1, 1⟩ },
             text := "b" }]) "") =
        .ok (.json [{ file := "a.py", range := { start := ⟨0, 0⟩, «end» := ⟨0, 1⟩ },
                      text := "a" }]) := by
  refine ⟨⟨by decide, by decide⟩, ?_, ?_⟩
  · exact max_results_unvalidated.1 "/p" "pat" "" none
      [{ file := "f.py", range := { start := ⟨0, 0⟩, «end» := ⟨0, 4⟩ },
         text := "pass" }] "" (by decide)
  · rw [max_results_unvalidated.2.2.2.2.2 "/p" "id: r" none
      [{ file := "a.py", range := { start := ⟨0, 0⟩, «end» := ⟨0, 1⟩ },
         text := "a" },
       { file := "b.py", range := { start := ⟨1, 0⟩, «end» := ⟨1, 1⟩ },
         text := "b" }] "" (-1) (by decide)]
    decide

end AstGrepMcp

namespace AstGrepMcp

/-- Counterexample to C3 as stated: with `max_results = K = 0` and one
engine match (`M = 1 > K`), the text output is the bare no-matches
indicator, not a `"Found N matches (showing first K of M)"` header. -/
theorem find_code_truncation_counterexample :
    find_code "/p" "pat" "" (some 0) "text" none
      (.completed 0 (.jsonMatches
        [{ file := "f.py", range := { start := ⟨0, 0⟩, «end» := ⟨0, 4⟩ },
           text := "pass" }]) "") = .ok (.text "No matches found") ∧
    "No matches found" ≠ "Found 0 matches (showing first 0 of 1):\n\n" := by
  exact ⟨by decide, by decide⟩

/-- C3 (amended): for `find_code` and `find_code_by_rule` with
`max_results = K ≥ 1` and `M` total engine matches, `M > K`: the structured
list is truncated to its first `K` complete matches before any text
rendering, the json output is exactly that `K`-element prefix, and the text
output is the header `"Found K matches (showing first K of M)"` followed by
the rendering of the truncated list; when `M ≤ K` (and the list is non-empty
for the text form) no truncation occurs and the header is
`"Found N matches"`.  (For `K = 0` the text output degenerates to the bare
no-matches indicator.) -/
theorem find_code_truncation :
    ∀ (folder pattern language yamlRule : String) (cfg : Option String)
      (ms : List Match) (K : Int) (e : String), 1 ≤ K →
      (K < (ms.length : Int) →
        find_code folder pattern language (some K) "json" cfg
          (.completed 0 (.jsonMatches ms) e) = .ok (.json (ms.take K.toNat))
        ∧ find_code folder pattern language (some K) "text" cfg
            (.completed 0 (.jsonMatches ms) e) =
          .ok (.text ("Found " ++ toString (ms.take K.toNat).length ++
            " matches" ++ " (showing first " ++ toString K ++ " of " ++
            toString ms.length ++ ")" ++ ":\n\n" ++
            format_matches_as_text (ms.take K.toNat)))
        ∧ find_code_by_rule folder yamlRule (some K) "json" cfg
            (.completed 0 (.jsonMatches ms) e) = .ok (.json (ms.take K.toNat))
        ∧ find_code_by_rule folder yamlRule (some K) "text" cfg
            (.completed 0 (.jsonMatches ms) e) =
          .ok (.text ("Found " ++ toString (ms.take K.toNat).length ++
            " matches" ++ " (showing first " ++ toString K ++ " of " ++
            toString ms.length ++ ")" ++ ":\n\n" ++
            format_matches_as_text (ms.take K.toNat))))
      ∧ ((ms.length : Int) ≤ K →
        find_code folder pattern language (some K) "json" cfg
          (.completed 0 (.jsonMatches ms) e) = .ok (.json ms)
        ∧ find_code_by_rule folder yamlRule (some K) "json" cfg
            (.completed 0 (.jsonMatches ms) e) = .ok (.json ms)
        ∧ (ms ≠ [] →
          find_code folder pattern language (some K) "text" cfg
            (.completed 0 (.jsonMatches ms) e) =
            .ok (.text ("Found " ++ toString ms.length ++ " matches" ++
              ":\n\n" ++ format_matches_as_text ms))
          ∧ find_code_by_rule folder yamlRule (some K) "text" cfg
              (.completed 0 (.jsonMatches ms) e) =
            .ok (.text ("Found " ++ toString ms.length ++ " matches" ++
              ":\n\n" ++ format_matches_as_text ms)))) := by
  intro folder pattern language yamlRule cfg ms K e hK
  constructor
  · intro hM
    have hkneg : ¬ K < 0 := by omega
    have htrunc : applyMaxResults (some K) ms = ms.take K.toNat := by
      simp [applyMaxResults, pySliceTo, hM, hkneg]
    have hne : ms.take K.toNat ≠ [] := by
      have h1 : K.toNat ≠ 0 := by omega
      have h2 : ms ≠ [] := by
        intro h
        subst h
        simp at hM
        omega
      simp [List.take_eq_nil_iff, h1, h2]
    refine ⟨?_, ?_, ?_, ?_⟩ <;>
      simp [find_code, find_code_by_rule, run_ast_grep, run_command,
        jsonLoadsStrippedOrEmptyList, htrunc, hne, countHeader, hM,
        bind, Except.bind, pure, Except.pure]
  · intro hM
    have hnotrunc : applyMaxResults (some K) ms = ms := by
      have : ¬ (ms.length : Int) > K := by omega
      simp [applyMaxResults, this]
    have hhead : ¬ (ms.length : Int) > K := by omega
    refine ⟨?_, ?_, ?_⟩
    · simp [find_code, run_ast_grep, run_command,
        jsonLoadsStrippedOrEmptyList, hnotrunc, bind, Except.bind,
        pure, Except.pure]
    · simp [find_code_by_rule, run_ast_grep, run_command,
        jsonLoadsStrippedOrEmptyList, hnotrunc, bind, Except.bind,
        pure, Except.pure]
    · intro hne
      constructor <;>
        simp [find_code, find_code_by_rule, run_ast_grep, run_command,
          jsonLoadsStrippedOrEmptyList, hnotrunc, hne, countHeader, hhead,
          bind, Except.bind, pure, Except.pure]

/-- Witness for C3's theorem: `K = 1`, `M = 2` — truncation to the first
complete match with the `(showing first 1 of 2)` header — and the
non-truncating case `K = 5`, `M = 2`. -/
theorem find_code_truncation_witness :
    ((1 : Int) ≤ 1 ∧ (1 : Int) < 2 ∧ (1 : Int) ≤ 5 ∧ (2 : Int) ≤ 5) ∧
      find_code "/p" "pat" "" (some 1) "text" none
        (.completed 0 (.jsonMatches
          [{ file := "a.py", range := { start := ⟨0, 0⟩, «end» := ⟨0, 1⟩ },
             text := "a" },
           { file := "b.py", range := { start := ⟨1, 0⟩, «end» := ⟨1, 1⟩ },
             text := "b" }]) "") =
        .ok (.text "Found 1 matches (showing first 1 of 2):\n\na.py:1\na") ∧
      find_code "/p" "pat" "" (some 5) "text" none
        (.completed 0 (.jsonMatches
          [{ file := "a.py", range := { start := ⟨0, 0⟩, «end» := ⟨0, 1⟩ },
             text := "a" },
           { file := "b.py", range := { start := ⟨1, 0⟩, «end» := ⟨1, 1⟩ },
             text := "b" }]) "") =
        .ok (.text "Found 2 matches:\n\na.py:1\na\n\nb.py:2\nb") := by
  refine ⟨⟨by decide, by decide, by decide, by decide⟩, ?_, ?_⟩
  · rw [((find_code_truncation "/p" "pat" "" "" none
      [{ file := "a.py", range := { start := ⟨0, 0⟩, «end» := ⟨0, 1⟩ },
         text := "a" },
       { file := "b.py", range := { start := ⟨1, 0⟩, «end» := ⟨1, 1⟩ },
         text := "b" }] 1 "" (by decide)).1 (by decide)).2.1]
    decide
  · rw [(((find_code_truncation "/p" "pat" "" "" none
      [{ file := "a.py", range := { start := ⟨0, 0⟩, «end» := ⟨0, 1⟩ },
         text := "a" },
       { file := "b.py", range := { start := ⟨1, 0⟩, «end» := ⟨1, 1⟩ },
         text := "b" }] 5 "" (by decide)).2 (by decide)).2.2 (by decide)).1]
    decide

end AstGrepMcp

namespace AstGrepMcp

/-- C9: `supported_languages` always returns a code-point-sorted,
duplicate-free list; when the configured path is set (truthy), the file
exists and parses to a truthy mapping containing a `customLanguages` key,
membership in the result is exactly membership in the baseline list or in
the custom-language keys; on a read/parse failure (or a missing file) the
result degrades to the baseline result; the function is total, so it never
raises an error to the caller. -/
theorem get_supported_languages_sorted_union :
    ∀ (cfg : Option String) (file : ConfigFile),
      List.Sorted strLe (get_supported_languages cfg file)
      ∧ (get_supported_languages cfg file).Nodup
      ∧ (∀ (p : String) (keys customLangKeys : List String),
          cfg = some p → p ≠ "" →
          file = .parsed (.mapping keys customLangKeys) →
          keys ≠ [] → "customLanguages" ∈ keys →
          ∀ x, x ∈ get_supported_languages cfg file ↔
            x ∈ baselineLanguages ∨ x ∈ customLangKeys)
      ∧ (∀ p : String,
          get_supported_languages (some p) .readError =
            get_supported_languages none .missing)
      ∧ (∀ p : String,
          get_supported_languages (some p) .missing =
            get_supported_languages none .missing)
      ∧ (∀ x, x ∈ get_supported_languages none .missing ↔
          x ∈ baselineLanguages) := by
  intro cfg file
  refine ⟨?_, ?_, ?_, ?_, ?_, ?_⟩
  · exact List.sorted_insertionSort strLe _
  · exact (List.perm_insertionSort strLe _).nodup_iff.mpr (List.nodup_dedup _)
  · intro p keys customLangKeys hcfg hp hfile hkeys hmem x
    subst hcfg
    subst hfile
    simp only [get_supported_languages]
    rw [(List.perm_insertionSort strLe _).mem_iff, List.mem_dedup]
    simp [hp, hkeys, hmem]
  · intro p
    by_cases hp : p = ""
    · subst hp
      rfl
    · simp [get_supported_languages, hp]
  · intro p
    by_cases hp : p = ""
    · subst hp
      rfl
    · simp [get_supported_languages, hp]
  · intro x
    simp only [get_supported_languages]
    rw [(List.perm_insertionSort strLe _).mem_iff, List.mem_dedup]

/-- Witness for C9's theorem: a config file declaring one custom language
`mylang` makes it a member of the advertised list alongside the baseline. -/
theorem get_supported_languages_sorted_union_witness :
    ((some "/cfg" : Option String) = some "/cfg" ∧ "/cfg" ≠ "" ∧
      (ConfigFile.parsed (.mapping ["customLanguages"] ["mylang"]) : ConfigFile) =
        .parsed (.mapping ["customLanguages"] ["mylang"]) ∧
      (["customLanguages"] : List String) ≠ [] ∧
      "customLanguages" ∈ (["customLanguages"] : List String)) ∧
    ("mylang" ∈ get_supported_languages (some "/cfg")
        (.parsed (.mapping ["customLanguages"] ["mylang"])) ↔
      "mylang" ∈ baselineLanguages ∨ "mylang" ∈ (["mylang"] : List String)) :=
  ⟨⟨rfl, by decide, rfl, by decide, by decide⟩,
    (get_supported_languages_sorted_union (some "/cfg")
      (.parsed (.mapping ["customLanguages"] ["mylang"]))).2.2.1 "/cfg"
      ["customLanguages"] ["mylang"] rfl (by decide) rfl (by decide)
      (by decide) "mylang"⟩

end AstGrepMcp

namespace AstGrepMcp

/-- C1: on every accepted `get_window` call, `producer` (a fresh engine
search) is invoked exactly when `offset = 0`, or no `CacheEntry` exists, or
the stored entry's key differs from `key`; in particular any key change
forces a fresh invocation even with `offset > 0`; and in every other case
(`offset > 0`, matching key) the cached match list is reused without
consulting `producer` — the whole result is independent of the `producer`
argument. -/
theorem get_window_freshness
    (key : SearchKey) (offset : Int) (limit : Option Int)
    (producer : List Match) (cache : Option CacheEntry) (r : WindowResult)
    (h : get_window key offset limit producer cache = .ok r) :
    (r.producerInvoked = true ↔
        (offset = 0 ∨ cache = none ∨
          ∃ entry, cache = some entry ∧ entry.key ≠ key))
    ∧ (∀ entry, cache = some entry → entry.key ≠ key →
        r.producerInvoked = true)
    ∧ (r.producerInvoked = false →
        ∀ producer' : List Match,
          get_window key offset limit producer' cache = .ok r) := by
  unfold get_window at h
  by_cases h₁ : offset < 0
  · rw [if_pos h₁] at h
    exact absurd h (by simp)
  · rw [if_neg h₁] at h
    by_cases h₂ : limitInvalid limit = true
    · rw [if_pos h₂] at h
      exact absurd h (by simp)
    · rw [if_neg h₂] at h
      rw [Except.ok.injEq] at h
      subst h
      cases cache with
      | none =>
          refine ⟨by simp, ?_, ?_⟩
          · intro entry hent
            cases hent
          · intro hfalse
            simp at hfalse
      | some entry =>
          by_cases hk : entry.key = key
          · by_cases ho : offset = 0
            · refine ⟨by simp [ho], ?_, ?_⟩
              · intro e he hne
                simp [ho]
              · intro hfalse
                simp [ho] at hfalse
            · refine ⟨by simp [ho, hk], ?_, ?_⟩
              · intro e he hne
                injection he with he'
                subst he'
                exact absurd hk hne
              · intro _ producer'
                unfold get_window
                rw [if_neg h₁, if_neg h₂]
                simp [ho, hk]
          · refine ⟨by simp [hk], ?_, ?_⟩
            · intro e he hne
              simp [hk]
            · intro hfalse
              simp [hk] at hfalse

/-- Witness for C1's theorem at a concrete paginated call: `offset = 1` with
a matching cached key reuses the cached list — the same window is returned
for a different `producer` value, without invoking it. -/
theorem get_window_freshness_witness :
    get_window ⟨"p", "/a", ""⟩ 1 (some 1)
        [{ file := "a.py", range := { start := ⟨0, 0⟩, «end» := ⟨0, 1⟩ },
           text := "a" }]
        (some ⟨⟨"p", "/a", ""⟩,
          [{ file := "a.py", range := { start := ⟨0, 0⟩, «end» := ⟨0, 1⟩ },
             text := "a" },
           { file := "b.py", range := { start := ⟨1, 0⟩, «end» := ⟨1, 1⟩ },
             text := "b" }]⟩) =
      .ok { window :=
              { results :=
                  [{ file := "b.py", range := { start := ⟨1, 0⟩, «end» := ⟨1, 1⟩ },
                     text := "b" }]
                total_matches := 2, offset := 1, limit := some 1
                returned := 1, has_more := false }
            cacheAfter := some ⟨⟨"p", "/a", ""⟩,
              [{ file := "a.py", range := { start := ⟨0, 0⟩, «end» := ⟨0, 1⟩ },
                 text := "a" },
               { file := "b.py", range := { start := ⟨1, 0⟩, «end» := ⟨1, 1⟩ },
                 text := "b" }]⟩
            producerInvoked := false } ∧
    get_window ⟨"p", "/a", ""⟩ 1 (some 1) []
        (some ⟨⟨"p", "/a", ""⟩,
          [{ file := "a.py", range := { start := ⟨0, 0⟩, «end» := ⟨0, 1⟩ },
             text := "a" },
           { file := "b.py", range := { start := ⟨1, 0⟩, «end» := ⟨1, 1⟩ },
             text := "b" }]⟩) =
      .ok { window :=
              { results :=
                  [{ file := "b.py", range := { start := ⟨1, 0⟩, «end» := ⟨1, 1⟩ },
                     text := "b" }]
                total_matches := 2, offset := 1, limit := some 1
                returned := 1, has_more := false }
            cacheAfter := some ⟨⟨"p", "/a", ""⟩,
              [{ file := "a.py", range := { start := ⟨0, 0⟩, «end» := ⟨0, 1⟩ },
                 text := "a" },
               { file := "b.py", range := { start := ⟨1, 0⟩, «end» := ⟨1, 1⟩ },
                 text := "b" }]⟩
            producerInvoked := false } := by
  have h : get_window ⟨"p", "/a", ""⟩ 1 (some 1)
      [{ file := "a.py", range := { start := ⟨0, 0⟩, «end» := ⟨0, 1⟩ },
         text := "a" }]
      (some ⟨⟨"p", "/a", ""⟩,
        [{ file := "a.py", range := { start := ⟨0, 0⟩, «end» := ⟨0, 1⟩ },
           text := "a" },
         { file := "b.py", range := { start := ⟨1, 0⟩, «end» := ⟨1, 1⟩ },
           text := "b" }]⟩) =
      .ok { window :=
              { results :=
                  [{ file := "b.py", range := { start := ⟨1, 0⟩, «end» := ⟨1, 1⟩ },
                     text := "b" }]
                total_matches := 2, offset := 1, limit := some 1
                returned := 1, has_more := false }
            cacheAfter := some ⟨⟨"p", "/a", ""⟩,
              [{ file := "a.py", range := { start := ⟨0, 0⟩, «end» := ⟨0, 1⟩ },
                 text := "a" },
               { file := "b.py", range := { start := ⟨1, 0⟩, «end» := ⟨1, 1⟩ },
                 text := "b" }]⟩
            producerInvoked := false } := by decide
  exact ⟨h, (get_window_freshness _ _ _ _ _ _ h).2.2 (by decide) []⟩

end AstGrepMcp
